import Mathlib

/-!
Shallow embedding of `gym_ropod/envs/ropod_env.py` (class `RopodEnv`).

The Python class orchestrates external OS processes.  We model the
process-facing world explicitly:

* `ProcWorld` is the operating system's view of spawned processes: a
  fresh-pid counter and a table mapping each pid to its `poll()` result
  (`none` while the process runs, `some code` once it has exited, as in
  `subprocess.Popen.poll`).  `wait` blocks until the process exits, so in
  the model it records an exited status for the pid (the concrete exit
  code is irrelevant to every property considered here and is taken to
  be 0).
* `Event` is the trace of observable side effects a method performs, in
  the order the Python statements execute them: status prints, process
  spawns (with the full command line), the fixed one-second pause, the
  blocking service-readiness wait (which takes no timeout argument,
  mirroring `rospy.wait_for_service(name)` called without one), service
  proxy creation, node initialisation, and `terminate`/`wait` on a pid.
* `RopodEnv` holds exactly the instance attributes the Python
  constructor sets: `roscore_process`, `sim_process`, `reset_sim_proxy`
  (modelled by the remote service name it is bound to) and
  `sim_vis_process`.

Python exceptions become an explicit `PyError` value; each method that
can raise returns an `Except` together with the world/trace effects it
produced before raising.
-/

/-- Observable side effects of `RopodEnv` methods, in execution order. -/
inductive Event where
  | log (msg : String) : Event
  | spawn (cmd : List String) : Event
  | sleep (seconds : Nat) : Event
  | waitForService (srvName : String) : Event
  | serviceProxy (srvName : String) : Event
  | initNode (name : String) : Event
  | terminate (pid : Nat) : Event
  | wait (pid : Nat) : Event
deriving DecidableEq, Repr

/-- The OS process table: a fresh-pid source and, for every spawned pid,
its current `poll()` result (`none` = still running, `some code` =
exited with that code). -/
structure ProcWorld where
  nextPid : Nat
  procs : List (Nat × Option Int)
deriving DecidableEq, Repr

/-- `poll` of a pid: `none` while the process runs, `some code` once it
has exited (mirrors `subprocess.Popen.poll`). -/
def ProcWorld.poll (w : ProcWorld) (pid : Nat) : Option Int :=
  match w.procs.lookup pid with
  | some st => st
  | none => none

/-- `subprocess.Popen`: allocate a fresh pid, initially running. -/
def ProcWorld.spawnProc (w : ProcWorld) : Nat × ProcWorld :=
  (w.nextPid, ⟨w.nextPid + 1, (w.nextPid, none) :: w.procs⟩)

/-- `Popen.wait`: block until the process has exited; afterwards `poll`
reports an exited status for the pid. -/
def ProcWorld.waitProc (w : ProcWorld) (pid : Nat) : ProcWorld :=
  ⟨w.nextPid, (pid, some 0) :: w.procs⟩

/-- Python exceptions raised by `RopodEnv`. -/
inductive PyError where
  | ioError (msg : String) : PyError
  | notImplementedError : PyError
deriving DecidableEq, Repr

/-- The instance attributes set by `RopodEnv.__init__`.  The service
proxy is modelled by the service name it is bound to. -/
structure RopodEnv where
  roscore_process : Nat
  sim_process : Nat
  reset_sim_proxy : String
  sim_vis_process : Option Nat
deriving DecidableEq, Repr

/-- `RopodEnv.__init__(launch_file_path, roscore_port, reset_sim_srv_name)`.
`path_exists` embeds `os.path.exists`.  Python defaults are
`roscore_port = "11311"` and `reset_sim_srv_name = "/gazebo/reset_world"`.
Returns the constructed instance (or the raised error) together with the
world after construction and the trace of effects performed, in
statement order. -/
def RopodEnv.init (path_exists : String → Bool) (w : ProcWorld)
    (launch_file_path : String) (roscore_port : String)
    (reset_sim_srv_name : String) :
    Except PyError RopodEnv × ProcWorld × List Event :=
  if path_exists launch_file_path then
    let roscore := w.spawnProc
    let sim := roscore.2.spawnProc
    (Except.ok
       { roscore_process := roscore.1
         sim_process := sim.1
         reset_sim_proxy := reset_sim_srv_name
         sim_vis_process := none },
     sim.2,
     [Event.log "[RopodEnv] Launching roscore...",
      Event.spawn ["roscore", "-p", roscore_port],
      Event.sleep 1,
      Event.log "[RopodEnv] Roscore launched!",
      Event.log "[RopodEnv] Launching simulator...",
      Event.spawn ["roslaunch", "-p", roscore_port, launch_file_path, "gui:=false"],
      Event.log "[RopodEnv] Simulator launched!",
      Event.log ("[RopodEnv] Waiting for service " ++ reset_sim_srv_name),
      Event.waitForService reset_sim_srv_name,
      Event.serviceProxy reset_sim_srv_name,
      Event.log ("[RopodEnv] Service " ++ reset_sim_srv_name ++ " is up"),
      Event.log "[RopodEnv] Initialising ROS node",
      Event.initNode "gym",
      Event.log "[RopodEnv] ROS node initialised"])
  else
    (Except.error (PyError.ioError (launch_file_path ++ " is not a valid launch file path")),
     w, [])

/-- `RopodEnv.step(action)`: the abstract base method raises
`NotImplementedError` before touching any state; the instance is
returned unchanged. -/
def RopodEnv.step (env : RopodEnv) (action : Int) : Except PyError Unit × RopodEnv :=
  (Except.error PyError.notImplementedError, env)

/-- `RopodEnv.reset()`: the abstract base method raises
`NotImplementedError` before touching any state; the instance is
returned unchanged. -/
def RopodEnv.reset (env : RopodEnv) : Except PyError Unit × RopodEnv :=
  (Except.error PyError.notImplementedError, env)

/-- `RopodEnv.render(mode)`: spawn a `gzclient` process if
`sim_vis_process is None or sim_vis_process.poll() is not None`,
storing the new handle; otherwise do nothing.  `mode` is unused by the
Python body. -/
def RopodEnv.render (env : RopodEnv) (w : ProcWorld) (mode : String) :
    RopodEnv × ProcWorld × List Event :=
  let needSpawn :=
    match env.sim_vis_process with
    | none => true
    | some pid => (w.poll pid).isSome
  if needSpawn then
    let client := w.spawnProc
    ({ env with sim_vis_process := some client.1 }, client.2, [Event.spawn ["gzclient"]])
  else
    (env, w, [])

/-- `RopodEnv._close_sim_client()`: if the visualization handle is
non-`None` and the process is still running, terminate it and wait for
it; otherwise do nothing. -/
def RopodEnv._close_sim_client (env : RopodEnv) (w : ProcWorld) : ProcWorld × List Event :=
  match env.sim_vis_process with
  | some pid =>
    if (w.poll pid).isNone then
      (w.waitProc pid, [Event.terminate pid, Event.wait pid])
    else (w, [])
  | none => (w, [])

/-- `RopodEnv.close()`: `_close_sim_client()`, then `sim_process.terminate()`,
`roscore_process.terminate()`, `sim_process.wait()`, `roscore_process.wait()`,
in that statement order. -/
def RopodEnv.close (env : RopodEnv) (w : ProcWorld) : ProcWorld × List Event :=
  let vis := env._close_sim_client w
  ((vis.1.waitProc env.sim_process).waitProc env.roscore_process,
   vis.2 ++
     [Event.terminate env.sim_process, Event.terminate env.roscore_process,
      Event.wait env.sim_process, Event.wait env.roscore_process])

/-- Number of process spawns recorded in a trace. -/
def countSpawns (tr : List Event) : Nat :=
  (tr.filter fun e =>
    match e with
    | Event.spawn _ => true
    | _ => false).length

/-- Claim C1: constructing with a launch file path for which
`os.path.exists` is false raises the `IOError` with the formatted
message, the world is untouched (no broker, simulator or visualization
process is spawned) and the effect trace is empty, so no instance state
was set before the error. -/
theorem init_invalid_path (path_exists : String → Bool) (w : ProcWorld)
    (lp port srv : String) (h : path_exists lp = false) :
    RopodEnv.init path_exists w lp port srv =
      (Except.error (PyError.ioError (lp ++ " is not a valid launch file path")), w, []) := by
  simp [RopodEnv.init, h]

/-- Witness for C1 at a concrete nonexistent path. -/
theorem init_invalid_path_witness :
    (fun _ : String => false) "/no/such/file.launch" = false ∧
    RopodEnv.init (fun _ => false) ⟨0, []⟩ "/no/such/file.launch" "11311" "/gazebo/reset_world" =
      (Except.error
        (PyError.ioError ("/no/such/file.launch" ++ " is not a valid launch file path")),
       (⟨0, []⟩ : ProcWorld), []) :=
  ⟨rfl, init_invalid_path (fun _ => false) ⟨0, []⟩ "/no/such/file.launch" "11311"
    "/gazebo/reset_world" rfl⟩

/-- Claim C3: on the unextended base class, `step` raises
`NotImplementedError` for every action and `reset` raises
`NotImplementedError`, and neither call modifies any instance state. -/
theorem step_reset_not_implemented (env : RopodEnv) (action : Int) :
    env.step action = (Except.error PyError.notImplementedError, env) ∧
    env.reset = (Except.error PyError.notImplementedError, env) :=
  ⟨rfl, rfl⟩

/-- Claim C10: `render` ignores its `mode` argument: from any starting
state, any two mode strings yield identical actions and identical
resulting state. -/
theorem render_ignores_mode (env : RopodEnv) (w : ProcWorld) (m1 m2 : String) :
    env.render w m1 = env.render w m2 :=
  rfl

/-- If a pid differs from the one waited on, its poll result is
unchanged by the wait. -/
theorem poll_waitProc_of_ne (w : ProcWorld) (p q : Nat) (h : q ≠ p) :
    (w.waitProc p).poll q = w.poll q := by
  have hb : (q == p) = false := beq_eq_false_iff_ne.mpr h
  simp [ProcWorld.waitProc, ProcWorld.poll, List.lookup, hb]

/-- The pid waited on reports an exited status afterwards. -/
theorem poll_waitProc_self (w : ProcWorld) (p : Nat) :
    (w.waitProc p).poll p = some 0 := by
  simp [ProcWorld.waitProc, ProcWorld.poll, List.lookup]

/-- Claim C2: for an existing launch file path, the constructor performs
its startup actions in strict statement order — spawn the roscore
broker, sleep one second, spawn the simulator via roslaunch with the
flag list ending in the no-GUI flag, then block on the readiness wait
for the named reset service (an `Event.waitForService` carrying no
timeout, since `rospy.wait_for_service` is called without one) — and
only then returns the constructed instance to the caller. -/
theorem init_startup_order (path_exists : String → Bool) (w : ProcWorld)
    (lp port srv : String) (h : path_exists lp = true) :
    (RopodEnv.init path_exists w lp port srv).2.2 =
      [Event.log "[RopodEnv] Launching roscore...",
       Event.spawn ["roscore", "-p", port],
       Event.sleep 1,
       Event.log "[RopodEnv] Roscore launched!",
       Event.log "[RopodEnv] Launching simulator...",
       Event.spawn ["roslaunch", "-p", port, lp, "gui:=false"],
       Event.log "[RopodEnv] Simulator launched!",
       Event.log ("[RopodEnv] Waiting for service " ++ srv),
       Event.waitForService srv,
       Event.serviceProxy srv,
       Event.log ("[RopodEnv] Service " ++ srv ++ " is up"),
       Event.log "[RopodEnv] Initialising ROS node",
       Event.initNode "gym",
       Event.log "[RopodEnv] ROS node initialised"] ∧
    (RopodEnv.init path_exists w lp port srv).1 =
      Except.ok ⟨w.nextPid, w.nextPid + 1, srv, none⟩ := by
  refine ⟨?_, ?_⟩ <;> simp [RopodEnv.init, ProcWorld.spawnProc, h]

/-- Witness for C2 at a concrete existing path. -/
theorem init_startup_order_witness :
    (fun _ : String => true) "/sim/ropod.launch" = true ∧
    ((RopodEnv.init (fun _ => true) ⟨0, []⟩ "/sim/ropod.launch" "11311"
        "/gazebo/reset_world").2.2 =
      [Event.log "[RopodEnv] Launching roscore...",
       Event.spawn ["roscore", "-p", "11311"],
       Event.sleep 1,
       Event.log "[RopodEnv] Roscore launched!",
       Event.log "[RopodEnv] Launching simulator...",
       Event.spawn ["roslaunch", "-p", "11311", "/sim/ropod.launch", "gui:=false"],
       Event.log "[RopodEnv] Simulator launched!",
       Event.log ("[RopodEnv] Waiting for service " ++ "/gazebo/reset_world"),
       Event.waitForService "/gazebo/reset_world",
       Event.serviceProxy "/gazebo/reset_world",
       Event.log ("[RopodEnv] Service " ++ "/gazebo/reset_world" ++ " is up"),
       Event.log "[RopodEnv] Initialising ROS node",
       Event.initNode "gym",
       Event.log "[RopodEnv] ROS node initialised"] ∧
     (RopodEnv.init (fun _ => true) ⟨0, []⟩ "/sim/ropod.launch" "11311"
        "/gazebo/reset_world").1 =
      Except.ok ⟨0, 0 + 1, "/gazebo/reset_world", none⟩) :=
  ⟨rfl, init_startup_order (fun _ => true) ⟨0, []⟩ "/sim/ropod.launch" "11311"
    "/gazebo/reset_world" rfl⟩

/-- Claim C4: `render` is idempotent while the visualization process is
alive — if the handle is non-`None` and `poll()` returns `none`, `render`
spawns nothing and leaves the instance and world unchanged — and hence
two successive `render` calls starting from a state with no
visualization handle spawn exactly one visualization process (on the
first call), provided the process does not die in between. -/
theorem render_idempotent_when_alive :
    (∀ (env : RopodEnv) (w : ProcWorld) (mode : String) (pid : Nat),
      env.sim_vis_process = some pid → w.poll pid = none →
      env.render w mode = (env, w, [])) ∧
    (∀ (env : RopodEnv) (w : ProcWorld) (m1 m2 : String),
      env.sim_vis_process = none →
      countSpawns ((env.render w m1).2.2 ++
        ((env.render w m1).1.render (env.render w m1).2.1 m2).2.2) = 1) := by
  constructor
  · intro env w mode pid h1 h2
    simp [RopodEnv.render, h1, h2]
  · intro env w m1 m2 h
    simp [RopodEnv.render, ProcWorld.spawnProc, ProcWorld.poll, List.lookup, h, countSpawns]

/-- Witness for C4: a live visualization process (pid 5) makes `render`
a no-op. -/
theorem render_idempotent_when_alive_witness :
    ((⟨0, 1, "/gazebo/reset_world", some 5⟩ : RopodEnv).sim_vis_process = some 5 ∧
     (⟨6, [(5, none)]⟩ : ProcWorld).poll 5 = none) ∧
    (⟨0, 1, "/gazebo/reset_world", some 5⟩ : RopodEnv).render ⟨6, [(5, none)]⟩ "human" =
      (⟨0, 1, "/gazebo/reset_world", some 5⟩, ⟨6, [(5, none)]⟩, []) :=
  ⟨⟨rfl, rfl⟩,
   render_idempotent_when_alive.1 ⟨0, 1, "/gazebo/reset_world", some 5⟩ ⟨6, [(5, none)]⟩
     "human" 5 rfl rfl⟩

/-- Claim C5: `close()` on an instance whose visualization handle is
still `None` does not error: its trace is exactly terminate/wait on the
simulator and broker handles (no other process is touched), and every
pid other than those two keeps its previous poll status. -/
theorem close_without_render (env : RopodEnv) (w : ProcWorld)
    (h : env.sim_vis_process = none) :
    (env.close w).2 =
      [Event.terminate env.sim_process, Event.terminate env.roscore_process,
       Event.wait env.sim_process, Event.wait env.roscore_process] ∧
    ∀ pid : Nat, pid ≠ env.sim_process → pid ≠ env.roscore_process →
      (env.close w).1.poll pid = w.poll pid := by
  constructor
  · simp [RopodEnv.close, RopodEnv._close_sim_client, h]
  · intro pid h1 h2
    simp only [RopodEnv.close, RopodEnv._close_sim_client, h]
    rw [poll_waitProc_of_ne _ _ _ h2, poll_waitProc_of_ne _ _ _ h1]

/-- Witness for C5 at a concrete never-rendered instance. -/
theorem close_without_render_witness :
    (⟨0, 1, "/gazebo/reset_world", none⟩ : RopodEnv).sim_vis_process = none ∧
    ((⟨0, 1, "/gazebo/reset_world", none⟩ : RopodEnv).close ⟨2, [(1, none), (0, none)]⟩).2 =
      [Event.terminate 1, Event.terminate 0, Event.wait 1, Event.wait 0] ∧
    ((⟨0, 1, "/gazebo/reset_world", none⟩ : RopodEnv).close
        ⟨2, [(1, none), (0, none)]⟩).1.poll 7 =
      (⟨2, [(1, none), (0, none)]⟩ : ProcWorld).poll 7 :=
  ⟨rfl,
   (close_without_render ⟨0, 1, "/gazebo/reset_world", none⟩
      ⟨2, [(1, none), (0, none)]⟩ rfl).1,
   (close_without_render ⟨0, 1, "/gazebo/reset_world", none⟩
      ⟨2, [(1, none), (0, none)]⟩ rfl).2 7 (by decide) (by decide)⟩

/-- Claim C6: after `close()` returns, both the broker and the simulator
process handles report an exited status (`poll` is no longer `none`),
because `close` waits on both before returning. -/
theorem close_processes_exited (env : RopodEnv) (w : ProcWorld) :
    ((env.close w).1.poll env.sim_process).isSome = true ∧
    ((env.close w).1.poll env.roscore_process).isSome = true := by
  constructor
  · by_cases hpq : env.sim_process = env.roscore_process
    · simp [RopodEnv.close, hpq, poll_waitProc_self]
    · simp [RopodEnv.close, poll_waitProc_of_ne _ _ _ hpq, poll_waitProc_self]
  · simp [RopodEnv.close, poll_waitProc_self]

/-- Claim C7: `close()` tears down in order — first the visualization
client synchronously (terminate then wait, and only when its handle is
non-`None` and it is still running), then termination requests for the
simulator and broker, then the blocking waits for both. -/
theorem close_teardown_order (env : RopodEnv) (w : ProcWorld) :
    (env.close w).2 =
      (match env.sim_vis_process with
       | some pid =>
         if (w.poll pid).isNone then [Event.terminate pid, Event.wait pid] else []
       | none => []) ++
      [Event.terminate env.sim_process, Event.terminate env.roscore_process,
       Event.wait env.sim_process, Event.wait env.roscore_process] := by
  cases h : env.sim_vis_process with
  | none => simp [RopodEnv.close, RopodEnv._close_sim_client, h]
  | some pid =>
    by_cases hp : (w.poll pid).isNone <;>
      simp [RopodEnv.close, RopodEnv._close_sim_client, h, hp]

/-- Claim C8: the visualization handle is `None` immediately after every
successful construction, and `step` and `reset` never change it; only
`render` ever assigns it a process handle. -/
theorem sim_vis_none_until_render :
    (∀ (path_exists : String → Bool) (w : ProcWorld) (lp port srv : String)
       (env : RopodEnv) (w2 : ProcWorld) (tr : List Event),
       RopodEnv.init path_exists w lp port srv = (Except.ok env, w2, tr) →
       env.sim_vis_process = none) ∧
    (∀ (env : RopodEnv) (a : Int), ((env.step a).2).sim_vis_process = env.sim_vis_process) ∧
    (∀ env : RopodEnv, (env.reset.2).sim_vis_process = env.sim_vis_process) := by
  refine ⟨?_, fun env a => rfl, fun env => rfl⟩
  intro path_exists w lp port srv env w2 tr h
  by_cases hp : path_exists lp
  · simp [RopodEnv.init, hp] at h
    obtain ⟨h1, -, -⟩ := h
    rw [← h1]
  · simp [RopodEnv.init, hp] at h

/-- Witness for C8 at a concrete successful construction. -/
theorem sim_vis_none_until_render_witness :
    (⟨0, 1, "/gazebo/reset_world", none⟩ : RopodEnv).sim_vis_process = none :=
  sim_vis_none_until_render.1 (fun _ => true) ⟨0, []⟩ "/sim/ropod.launch" "11311"
    "/gazebo/reset_world" ⟨0, 1, "/gazebo/reset_world", none⟩
    ⟨2, [(1, none), (0, none)]⟩
    [Event.log "[RopodEnv] Launching roscore...",
     Event.spawn ["roscore", "-p", "11311"],
     Event.sleep 1,
     Event.log "[RopodEnv] Roscore launched!",
     Event.log "[RopodEnv] Launching simulator...",
     Event.spawn ["roslaunch", "-p", "11311", "/sim/ropod.launch", "gui:=false"],
     Event.log "[RopodEnv] Simulator launched!",
     Event.log ("[RopodEnv] Waiting for service " ++ "/gazebo/reset_world"),
     Event.waitForService "/gazebo/reset_world",
     Event.serviceProxy "/gazebo/reset_world",
     Event.log ("[RopodEnv] Service " ++ "/gazebo/reset_world" ++ " is up"),
     Event.log "[RopodEnv] Initialising ROS node",
     Event.initNode "gym",
     Event.log "[RopodEnv] ROS node initialised"] rfl

/-- Claim C9: if the visualization handle is non-`None` but the process
has exited (`poll()` returns an exit status), `render` spawns a fresh
`gzclient` process and replaces the stored handle with the new one. -/
theorem render_restarts_dead_client (env : RopodEnv) (w : ProcWorld) (mode : String)
    (pid : Nat) (c : Int) (h1 : env.sim_vis_process = some pid)
    (h2 : w.poll pid = some c) :
    env.render w mode =
      ({ env with sim_vis_process := some w.nextPid },
       ⟨w.nextPid + 1, (w.nextPid, none) :: w.procs⟩,
       [Event.spawn ["gzclient"]]) := by
  simp [RopodEnv.render, ProcWorld.spawnProc, h1, h2]

/-- Witness for C9: a dead visualization process (pid 5, exit code 0) is
replaced by a fresh one (pid 6). -/
theorem render_restarts_dead_client_witness :
    ((⟨0, 1, "/gazebo/reset_world", some 5⟩ : RopodEnv).sim_vis_process = some 5 ∧
     (⟨6, [(5, some 0)]⟩ : ProcWorld).poll 5 = some 0) ∧
    (⟨0, 1, "/gazebo/reset_world", some 5⟩ : RopodEnv).render ⟨6, [(5, some 0)]⟩ "human" =
      (⟨0, 1, "/gazebo/reset_world", some 6⟩, ⟨7, [(6, none), (5, some 0)]⟩,
       [Event.spawn ["gzclient"]]) :=
  ⟨⟨rfl, rfl⟩,
   render_restarts_dead_client ⟨0, 1, "/gazebo/reset_world", some 5⟩ ⟨6, [(5, some 0)]⟩
     "human" 5 0 rfl rfl⟩
